import Mathlib

/-!
Verification of the reservation-agent data-access layer.

Shallow embedding of the two tool variants of the repository:
the synchronous variant in src/tools.py and the asynchronous variant in
src/reservation_agent/tools.py, together with the session-state handling of
src/reservation_agent/tools.py (validate_oauth2_token) and the lazy
connection-pool initialization (init_connection_pool / get_engine).

External effects are made explicit: the database is a table of rows plus an
optional injected driver fault, pool checkouts/checkins are recorded as an
event list, and the number of executed queries and the user_id value bound
into the query are recorded as observables of each call.
-/

namespace KvgPoc

/-- Python truthiness of an optional string value: None and the empty string
are falsy, every other string is truthy. -/
def pyTruthyStr : Option String → Bool
  | none => false
  | some s => s != ""

/-- Python truthiness of an optional boolean value: None and False are falsy. -/
def pyTruthyBool : Option Bool → Bool
  | none => false
  | some b => b

/-- Row of the reservations table
(id, user_id, reservation_details, reservation_date).  The id column type
differs between the two variants: the sync variant binds an integer, the
async variant binds the raw string, so the row type is parametric in it.
Dates are modelled as integers (only their order matters). -/
structure Reservation (α : Type) where
  id : α
  user_id : String
  reservation_details : String
  reservation_date : Int
deriving DecidableEq

/-- Database state seen by one call: the reservations table plus an optional
injected driver fault.  When fault is some e, executing a query raises a
database error carrying message e instead of returning rows. -/
structure DB (α : Type) where
  rows : List (Reservation α)
  fault : Option String
deriving DecidableEq

/-- Row dictionary shape returned by the tools:
keys id, user_id, details, date — with the date rendered via str(). -/
structure ResRow (α : Type) where
  id : α
  user_id : String
  details : String
  date : String
deriving DecidableEq

/-- Conversion of a fetched row into the response dictionary shape. -/
def toResRow {α : Type} (r : Reservation α) : ResRow α :=
  ⟨r.id, r.user_id, r.reservation_details, toString r.reservation_date⟩

/-- Tool response dictionaries: an error dict, a message dict, a single
reservation dict, or a reservations list dict. -/
inductive ToolResponse (α : Type) where
  | error (msg : String)
  | message (msg : String)
  | row (r : ResRow α)
  | rows (rs : List (ResRow α))
deriving DecidableEq

/-- Pool events observed during a call: a connection checkout from the pool
or a checkin back to the pool. -/
inductive PoolEv where
  | acquire
  | release
deriving DecidableEq

/-- Effect of one pool event on the checked-out connection count. -/
def applyEv (n : Nat) : PoolEv → Nat
  | .acquire => n + 1
  | .release => n - 1

/-- Checked-out connection count after running an event list from count n. -/
def runEvents (n : Nat) (evs : List PoolEv) : Nat :=
  evs.foldl applyEv n

/-- Digit-list accumulator for py_int: consumes decimal digits, failing on
the first non-digit character. -/
def parseDigitsAux : List Char → Nat → Option Nat
  | [], acc => some acc
  | c :: cs, acc =>
      if c.isDigit then parseDigitsAux cs (acc * 10 + (c.toNat - 48))
      else none

/-- Model of the Python int(s) conversion used to validate reservation ids:
an optional leading minus sign followed by at least one decimal digit
succeeds with the denoted integer; everything else raises ValueError,
modelled as None. -/
def py_int (s : String) : Option Int :=
  match s.data with
  | [] => none
  | '-' :: [] => none
  | '-' :: c :: cs => (parseDigitsAux (c :: cs) 0).map (fun n => -(n : Int))
  | cs => (parseDigitsAux cs 0).map (fun n => (n : Int))

/-- Embedding of the parameterized statement
SELECT id, user_id, reservation_details, reservation_date FROM reservations
WHERE id = :reservation_id_param AND user_id = :user_id_param
followed by fetchone(): the filter is applied server-side, in the single
statement, on both columns. -/
def fetch_by_id {α : Type} [DecidableEq α] (db : DB α) (rid : α) (uid : String) :
    Option (Reservation α) :=
  (db.rows.filter (fun r => decide (r.id = rid ∧ r.user_id = uid))).head?

/-- Embedding of the parameterized statement
SELECT id, user_id, reservation_details, reservation_date FROM reservations
WHERE user_id = :user_id_param ORDER BY reservation_date DESC LIMIT 3:
filter by owner, sort by date descending, keep at most 3 rows — all at the
query level. -/
def latest_query {α : Type} (db : DB α) (uid : String) : List (Reservation α) :=
  (List.insertionSort (fun a b => b.reservation_date ≤ a.reservation_date)
    (db.rows.filter (fun r => decide (r.user_id = uid)))).take 3

namespace tools

/-- ToolContext of the sync variant (src/tools.py): the ADK state
dictionary carrying per-session scratch values; modelled as an association
list so dict.get and dict truthiness are explicit. -/
structure ToolContext where
  state : List (String × String)
deriving DecidableEq

/-- Python dict.get: value of the first binding of the key, None if absent. -/
def dict_get (d : List (String × String)) (k : String) : Option String :=
  (d.find? (fun p => p.1 == k)).map (fun p => p.2)

/-- Embedding of get_user_id_from_context (src/tools.py): user_id starts as
None and is read from state under key "user_id_from_oauth" only when both the
context and its state dictionary are truthy (a None context or an empty dict
leaves it None). -/
def get_user_id_from_context (tool_context : Option ToolContext) : Option String :=
  match tool_context with
  | none => none
  | some tc =>
      if tc.state.isEmpty then none
      else dict_get tc.state "user_id_from_oauth"

/-- Observables of one sync tool call: the returned response dictionary, the
pool checkout/checkin events, the number of executed queries, and the
user_id value bound into the query (None when no query was executed). -/
structure CallTrace where
  resp : ToolResponse Int
  events : List PoolEv
  queries : Nat
  boundUserId : Option String
deriving DecidableEq

/-- Embedding of get_user_reservation_by_id (src/tools.py).  sessionLocal
records whether init_connection_pool already assigned SessionLocal.  The
branches mirror the source: the logged-in gate, the empty reservation_id
check, the SessionLocal check, the int() conversion (ValueError caught and
turned into the invalid-format error before any query), then the
parameterized query.  The SQLAlchemy session checks a connection out of the
pool at the first execute and the finally block closes the session, so query
branches record acquire/release and pre-query branches record no pool event.
A driver fault is caught and rendered with the raw message appended
(str(e)); the full error is also printed to the log, which is not modelled. -/
def get_user_reservation_by_id (sessionLocal : Bool) (db : DB Int)
    (tool_context : Option ToolContext) (reservation_id : String) : CallTrace :=
  let user_id := get_user_id_from_context tool_context
  if pyTruthyStr user_id = false then
    ⟨.error "I can only look up reservations if you're logged in,", [], 0, none⟩
  else if reservation_id = "" then
    ⟨.error "Reservation ID was not provided.", [], 0, none⟩
  else if sessionLocal = false then
    ⟨.error "Database session not initialized.", [], 0, none⟩
  else
    match py_int reservation_id with
    | none =>
        ⟨.error ("Invalid reservation ID format: " ++ reservation_id ++
          ". Expected an integer or numeric string."), [], 0, none⟩
    | some rid =>
        match db.fault with
        | some e =>
            ⟨.error ("An error occurred while fetching the reservation: " ++ e),
              [.acquire, .release], 1, some (user_id.getD "")⟩
        | none =>
            match fetch_by_id db rid (user_id.getD "") with
            | none =>
                ⟨.message ("No reservation found with ID " ++ reservation_id ++
                  " in your name."), [.acquire, .release], 1, some (user_id.getD "")⟩
            | some r =>
                ⟨.row (toResRow r), [.acquire, .release], 1, some (user_id.getD "")⟩

/-- Embedding of get_latest_user_reservations (src/tools.py): the logged-in
gate, the SessionLocal check, then the filtered, date-descending, LIMIT 3
query; an empty row list yields the no-reservations message, a driver fault
is caught and rendered with str(e) appended, and the finally block closes
the session on every query path. -/
def get_latest_user_reservations (sessionLocal : Bool) (db : DB Int)
    (tool_context : Option ToolContext) : CallTrace :=
  let user_id := get_user_id_from_context tool_context
  if pyTruthyStr user_id = false then
    ⟨.error "I was unable to find any reservations under your name.", [], 0, none⟩
  else if sessionLocal = false then
    ⟨.error "Database session not initialized.", [], 0, none⟩
  else
    match db.fault with
    | some e =>
        ⟨.error ("An error occurred while fetching latest reservations: " ++ e),
          [.acquire, .release], 1, some (user_id.getD "")⟩
    | none =>
        let res := latest_query db (user_id.getD "")
        if res.isEmpty then
          ⟨.message ("No reservations found for user " ++ user_id.getD "" ++ "."),
            [.acquire, .release], 1, some (user_id.getD "")⟩
        else
          ⟨.rows (res.map toResRow), [.acquire, .release], 1, some (user_id.getD "")⟩

end tools

namespace reservation_agent

/-- Session state keys used by the async variant
(src/reservation_agent/tools.py): logged_in, user_token, id_token_info.
Each field is the value stored under the key, None when the key is absent. -/
structure State where
  logged_in : Option Bool
  user_token : Option String
  id_token_info : Option String
deriving DecidableEq

/-- ToolContext of the async variant: carries the session state. -/
structure ToolContext where
  state : State
deriving DecidableEq

/-- Embedding of validate_oauth2_token (src/reservation_agent/tools.py).
The external id_token.verify_oauth2_token call (run in an executor) is a
parameter: .ok carries the verified token payload, .error carries a raised
verification failure (expired/malformed/revoked credential or unreachable
verifier).  An absent (falsy) token writes logged_in = False and returns;
otherwise the function awaits the verifier with no try/except around it, so
a verification failure propagates as a raised fault (.error) without
touching the state, and success writes logged_in = True and stores the
token payload. -/
def validate_oauth2_token (st : State) (verify : Except String String) :
    Except String State :=
  if pyTruthyStr st.user_token = false then
    .ok { st with logged_in := some false }
  else
    match verify with
    | .error e => .error e
    | .ok idinfo =>
        .ok { st with logged_in := some true, id_token_info := some idinfo }

/-- Embedding of get_user_id_from_context (src/reservation_agent/tools.py):
when state.get("logged_in") is falsy it returns the sentinel string
"user must be logged in to use this tool"; otherwise the user is hard-coded
to "user_123". -/
def get_user_id_from_context (tool_context : ToolContext) : String :=
  if pyTruthyBool tool_context.state.logged_in = false then
    "user must be logged in to use this tool"
  else
    "user_123"

/-- Decidable equality of Except outcomes, used to evaluate the embedding on
concrete inputs. -/
instance {ε α : Type} [DecidableEq ε] [DecidableEq α] :
    DecidableEq (Except ε α) := fun a b =>
  match a, b with
  | .error e, .error f =>
      if h : e = f then .isTrue (by rw [h])
      else .isFalse (fun hc => by cases hc; exact h rfl)
  | .ok x, .ok y =>
      if h : x = y then .isTrue (by rw [h])
      else .isFalse (fun hc => by cases hc; exact h rfl)
  | .error _, .ok _ => .isFalse (fun hc => by cases hc)
  | .ok _, .error _ => .isFalse (fun hc => by cases hc)

/-- Observables of one async tool call: the outcome (.ok response dictionary,
or .error for an exception propagating out of the coroutine), pool events,
query count, and the user_id value bound into the query. -/
structure RACallResult where
  outcome : Except String (ToolResponse String)
  events : List PoolEv
  queries : Nat
  boundUserId : Option String
deriving DecidableEq

/-- Embedding of the async get_user_reservation_by_id
(src/reservation_agent/tools.py).  Branches mirror the source: the
`if not user_id` check on the helper result (the helper always returns a
non-empty string, so this gate never fires), the empty reservation_id check,
then get_engine and `async with pool.connect()` around the parameterized
query with the raw reservation_id string bound directly (no numeric
validation).  The async context manager returns the connection to the pool
both on normal exit and when the query raises, and there is no try/except,
so a driver fault propagates as .error. -/
def get_user_reservation_by_id (db : DB String) (tool_context : ToolContext)
    (reservation_id : String) : RACallResult :=
  let user_id := get_user_id_from_context tool_context
  if user_id = "" then
    ⟨.ok (.error "I can only look up reservations if you're logged in,"),
      [], 0, none⟩
  else if reservation_id = "" then
    ⟨.ok (.error "Reservation ID was not provided."), [], 0, none⟩
  else
    match db.fault with
    | some e => ⟨.error e, [.acquire, .release], 1, some user_id⟩
    | none =>
        match fetch_by_id db reservation_id user_id with
        | none =>
            ⟨.ok (.message ("No reservation found with ID " ++ reservation_id ++
              " in your name.")), [.acquire, .release], 1, some user_id⟩
        | some r =>
            ⟨.ok (.row (toResRow r)), [.acquire, .release], 1, some user_id⟩

/-- Embedding of the async get_latest_user_reservations
(src/reservation_agent/tools.py): the (never-firing) `if not user_id` check,
then the filtered, date-descending, LIMIT 3 query inside
`async with pool.connect()`; empty results yield the no-reservations
message and a driver fault propagates as .error with the connection still
returned to the pool. -/
def get_latest_user_reservations (db : DB String) (tool_context : ToolContext) :
    RACallResult :=
  let user_id := get_user_id_from_context tool_context
  if user_id = "" then
    ⟨.ok (.error "I was unable to find any reservations under your name."),
      [], 0, none⟩
  else
    match db.fault with
    | some e => ⟨.error e, [.acquire, .release], 1, some user_id⟩
    | none =>
        let res := latest_query db user_id
        if res.isEmpty then
          ⟨.ok (.message ("No reservations found for user " ++ user_id ++ ".")),
            [.acquire, .release], 1, some user_id⟩
        else
          ⟨.ok (.rows (res.map toResRow)), [.acquire, .release], 1, some user_id⟩

end reservation_agent

/-- State of the lazy pool-initialization race model for two first-time
callers of init_connection_pool (src/tools.py) / get_engine
(src/reservation_agent/tools.py).  Each caller runs two atomic steps of the
unguarded lazy-init pattern: first the check (`if engine: return` resp.
`if not engine:`), then — if it saw no engine — construction and assignment
of a new engine.  Engines are numbered by construction order so distinct
constructions are distinguishable; pc is 0 before the check, 1 after a
failed check (construction pending), 2 when the caller returned; ret is the
engine the caller ends up using. -/
structure InitState where
  engine : Option Nat
  constructed : Nat
  pc1 : Nat
  ret1 : Option Nat
  pc2 : Nat
  ret2 : Option Nat
deriving DecidableEq

/-- Initial state: no engine yet, both callers before their check. -/
def initStart : InitState := ⟨none, 0, 0, none, 0, none⟩

/-- One atomic step of the designated caller (true = caller 1): the check
step returns the existing engine if there is one, otherwise falls through;
the construction step builds a fresh engine and overwrites the global. -/
def stepInit (s : InitState) (first : Bool) : InitState :=
  if first then
    match s.pc1 with
    | 0 =>
        match s.engine with
        | some e => { s with pc1 := 2, ret1 := some e }
        | none => { s with pc1 := 1 }
    | 1 =>
        { s with engine := some (s.constructed + 1),
                 constructed := s.constructed + 1,
                 pc1 := 2, ret1 := some (s.constructed + 1) }
    | _ => s
  else
    match s.pc2 with
    | 0 =>
        match s.engine with
        | some e => { s with pc2 := 2, ret2 := some e }
        | none => { s with pc2 := 1 }
    | 1 =>
        { s with engine := some (s.constructed + 1),
                 constructed := s.constructed + 1,
                 pc2 := 2, ret2 := some (s.constructed + 1) }
    | _ => s

/-- Run a schedule (list of caller choices) from a state. -/
def runInit (s : InitState) (sched : List Bool) : InitState :=
  sched.foldl stepInit s

/-- The date-descending order used by the LIMIT 3 query is total. -/
instance {α : Type} :
    IsTotal (Reservation α)
      (fun a b => b.reservation_date ≤ a.reservation_date) :=
  ⟨fun a b => le_total b.reservation_date a.reservation_date⟩

/-- The date-descending order used by the LIMIT 3 query is transitive. -/
instance {α : Type} :
    IsTrans (Reservation α)
      (fun a b => b.reservation_date ≤ a.reservation_date) :=
  ⟨fun _ _ _ hab hbc => le_trans hbc hab⟩

theorem latest_query_length {α : Type} (db : DB α) (uid : String) :
    (latest_query db uid).length ≤ 3 :=
  List.length_take_le _ _

theorem latest_query_sorted {α : Type} (db : DB α) (uid : String) :
    List.Sorted (fun a b => b.reservation_date ≤ a.reservation_date)
      (latest_query db uid) :=
  (List.sorted_insertionSort _ _).sublist (List.take_sublist _ _)

theorem latest_query_owner {α : Type} (db : DB α) (uid : String) :
    ∀ r ∈ latest_query db uid, r.user_id = uid := by
  intro r hr
  have hr2 : r ∈ List.insertionSort
      (fun a b => b.reservation_date ≤ a.reservation_date)
      (db.rows.filter (fun r => decide (r.user_id = uid))) :=
    List.take_subset _ _ hr
  have hr3 : r ∈ db.rows.filter (fun r => decide (r.user_id = uid)) :=
    (List.mem_insertionSort _).mp hr2
  exact of_decide_eq_true (List.mem_filter.mp hr3).2

theorem latest_query_rows_owner {α : Type} (db : DB α) (uid : String) :
    ∀ row ∈ (latest_query db uid).map toResRow, row.user_id = uid := by
  intro row hrow
  obtain ⟨r, hr, hmap⟩ := List.mem_map.mp hrow
  rw [← hmap]
  exact latest_query_owner db uid r hr

theorem fetch_by_id_some {α : Type} [DecidableEq α] {db : DB α} {rid : α}
    {uid : String} {r : Reservation α} (h : fetch_by_id db rid uid = some r) :
    r.id = rid ∧ r.user_id = uid := by
  have hmem : r ∈ db.rows.filter
      (fun r => decide (r.id = rid ∧ r.user_id = uid)) := by
    apply List.mem_of_mem_head?
    unfold fetch_by_id at h
    exact h
  exact of_decide_eq_true (List.mem_filter.mp hmem).2

theorem fetch_by_id_none {α : Type} [DecidableEq α] {db : DB α} {rid : α}
    {uid : String} (h : ∀ r ∈ db.rows, r.id = rid → r.user_id ≠ uid) :
    fetch_by_id db rid uid = none := by
  unfold fetch_by_id
  have hnil : db.rows.filter
      (fun r => decide (r.id = rid ∧ r.user_id = uid)) = [] := by
    apply List.filter_eq_nil_iff.mpr
    intro r hr
    simp only [decide_eq_true_eq, not_and]
    exact h r hr
  rw [hnil]
  rfl

/-- Claim C1 (refuted by the async variant, code bug): a session whose
logged_in flag is false (or absent) does not short-circuit, because
get_user_id_from_context returns the non-empty sentinel string
"user must be logged in to use this tool", so the `if not user_id` gate never
fires: both tools still check a connection out of the pool and issue a
database query with the sentinel bound as user_id, and return a not-found
message rather than an auth error with zero queries. -/
theorem C1_unauthenticated_session_still_queries :
    (reservation_agent.get_user_reservation_by_id ⟨[], none⟩
      ⟨⟨some false, some "tok-a", none⟩⟩ "42").queries = 1
    ∧ (reservation_agent.get_user_reservation_by_id ⟨[], none⟩
      ⟨⟨some false, some "tok-a", none⟩⟩ "42").events = [.acquire, .release]
    ∧ (reservation_agent.get_user_reservation_by_id ⟨[], none⟩
      ⟨⟨some false, some "tok-a", none⟩⟩ "42").outcome =
      .ok (.message "No reservation found with ID 42 in your name.")
    ∧ (reservation_agent.get_user_reservation_by_id ⟨[], none⟩
      ⟨⟨some false, some "tok-a", none⟩⟩ "42").boundUserId =
      some "user must be logged in to use this tool"
    ∧ (reservation_agent.get_latest_user_reservations ⟨[], none⟩
      ⟨⟨none, none, none⟩⟩).queries = 1
    ∧ (reservation_agent.get_latest_user_reservations ⟨[], none⟩
      ⟨⟨none, none, none⟩⟩).outcome =
      .ok (.message
        "No reservations found for user user must be logged in to use this tool.") :=
  ⟨rfl, rfl, rfl, rfl, rfl, rfl⟩

/-- Claim C3 (refuted, code bug): the lazy pool initialization is an
unguarded check-then-construct, so under the interleaving in which both
first-time callers pass the `if engine` check before either assigns the
global, two pools are constructed (the second overwriting the first) — the
pool is not constructed at most once regardless of interleaving.  Under a
serialized schedule exactly one pool is constructed and both callers receive
it. -/
theorem C3_duplicate_pool_under_race :
    (runInit initStart [true, false, true, false]).constructed = 2
    ∧ (runInit initStart [true, false, true, false]).ret1 = some 1
    ∧ (runInit initStart [true, false, true, false]).ret2 = some 2
    ∧ (runInit initStart [true, true, false, false]).constructed = 1
    ∧ (runInit initStart [true, true, false, false]).ret1 = some 1
    ∧ (runInit initStart [true, true, false, false]).ret2 = some 1 := by
  decide

/-- Claim C9 (confirmed): every connection checked out of the pool during a
tool invocation is checked back in on the normal path and on every error
path (the sync finally-close and the async context manager): after any
invocation of either tool, in either variant, over any database state
(including injected driver faults), the pool connection count equals the
count before the call. -/
theorem C9_connections_released (n : Nat) (sl : Bool) (db : DB Int)
    (tc : Option tools.ToolContext) (rid : String) (dbS : DB String)
    (tcS : reservation_agent.ToolContext) (ridS : String) :
    runEvents n (tools.get_user_reservation_by_id sl db tc rid).events = n
    ∧ runEvents n (tools.get_latest_user_reservations sl db tc).events = n
    ∧ runEvents n
        (reservation_agent.get_user_reservation_by_id dbS tcS ridS).events = n
    ∧ runEvents n
        (reservation_agent.get_latest_user_reservations dbS tcS).events = n := by
  refine ⟨?_, ?_, ?_, ?_⟩
  · by_cases hc : pyTruthyStr (tools.get_user_id_from_context tc) = false
    · simp [tools.get_user_reservation_by_id, hc, runEvents]
    · simp only [tools.get_user_reservation_by_id, hc, if_false, ite_false]
      repeat' split
      all_goals rfl
  · by_cases hc : pyTruthyStr (tools.get_user_id_from_context tc) = false
    · simp [tools.get_latest_user_reservations, hc, runEvents]
    · simp only [tools.get_latest_user_reservations, hc, if_false, ite_false]
      repeat' split
      all_goals rfl
  · by_cases hc : reservation_agent.get_user_id_from_context tcS = ""
    · simp [reservation_agent.get_user_reservation_by_id, hc, runEvents]
    · simp only [reservation_agent.get_user_reservation_by_id, hc, if_false,
        ite_false]
      repeat' split
      all_goals rfl
  · by_cases hc : reservation_agent.get_user_id_from_context tcS = ""
    · simp [reservation_agent.get_latest_user_reservations, hc, runEvents]
    · simp only [reservation_agent.get_latest_user_reservations, hc, if_false,
        ite_false]
      repeat' split
      all_goals rfl

theorem pyTruthyStr_some {o : Option String} (h : pyTruthyStr o = true) :
    o = some (o.getD "") := by
  cases o with
  | none => simp [pyTruthyStr] at h
  | some s => rfl

theorem ra_uid_ne_empty (tc : reservation_agent.ToolContext) :
    reservation_agent.get_user_id_from_context tc ≠ "" := by
  unfold reservation_agent.get_user_id_from_context
  split <;> simp

/-- Claim C2 (confirmed): in both variants, get_user_reservation_by_id
returns a reservation row only when its owner equals the session identity;
when the requested id exists in the table but every row with that id is
owned by a different identity, the call returns exactly the not-found
message — not the row and not an error revealing the row's existence. -/
theorem C2_tenant_isolation
    (db : DB Int) (tc : Option tools.ToolContext) (rid : String) (uidA : String)
    (hu : tools.get_user_id_from_context tc = some uidA) (hne : uidA ≠ "")
    (dbS : DB String) (tcS : reservation_agent.ToolContext) (ridS : String) :
    (∀ row, (tools.get_user_reservation_by_id true db tc rid).resp =
        .row row → row.user_id = uidA)
    ∧ (∀ n, py_int rid = some n → db.fault = none →
        (∀ r ∈ db.rows, r.id = n → r.user_id ≠ uidA) →
        (tools.get_user_reservation_by_id true db tc rid).resp =
          .message ("No reservation found with ID " ++ rid ++ " in your name."))
    ∧ (∀ row, (reservation_agent.get_user_reservation_by_id dbS tcS ridS).outcome
        = .ok (.row row) →
        row.user_id = reservation_agent.get_user_id_from_context tcS)
    ∧ (ridS ≠ "" → dbS.fault = none →
        (∀ r ∈ dbS.rows, r.id = ridS →
          r.user_id ≠ reservation_agent.get_user_id_from_context tcS) →
        (reservation_agent.get_user_reservation_by_id dbS tcS ridS).outcome =
          .ok (.message ("No reservation found with ID " ++ ridS ++
            " in your name."))) := by
  have hpt : pyTruthyStr (tools.get_user_id_from_context tc) = true := by
    rw [hu]
    simp [pyTruthyStr, hne]
  have hgd : (tools.get_user_id_from_context tc).getD "" = uidA := by
    rw [hu]
    rfl
  have hneS : reservation_agent.get_user_id_from_context tcS ≠ "" :=
    ra_uid_ne_empty tcS
  refine ⟨?_, ?_, ?_, ?_⟩
  · intro row hrow
    by_cases h1 : rid = ""
    · simp [tools.get_user_reservation_by_id, hpt, h1] at hrow
    · rcases hpy : py_int rid with _ | n
      · simp [tools.get_user_reservation_by_id, hpt, h1, hpy] at hrow
      · rcases hf : db.fault with _ | e
        · rcases hfetch : fetch_by_id db n
              ((tools.get_user_id_from_context tc).getD "") with _ | r
          · simp [tools.get_user_reservation_by_id, hpt, h1, hpy, hf,
              hfetch] at hrow
          · simp [tools.get_user_reservation_by_id, hpt, h1, hpy, hf,
              hfetch] at hrow
            rw [← hrow]
            have hr2 := (fetch_by_id_some hfetch).2
            rw [hgd] at hr2
            exact hr2
        · simp [tools.get_user_reservation_by_id, hpt, h1, hpy, hf] at hrow
  · intro n hpy hf hmiss
    have h1 : rid ≠ "" := by
      intro h
      rw [h] at hpy
      simp [py_int] at hpy
    have hfetch : fetch_by_id db n uidA = none := fetch_by_id_none hmiss
    rw [← hgd] at hfetch
    simp [tools.get_user_reservation_by_id, hpt, h1, hpy, hf, hfetch]
  · intro row hrow
    by_cases h1 : ridS = ""
    · simp [reservation_agent.get_user_reservation_by_id, hneS, h1] at hrow
    · rcases hf : dbS.fault with _ | e
      · rcases hfetch : fetch_by_id dbS ridS
            (reservation_agent.get_user_id_from_context tcS) with _ | r
        · simp [reservation_agent.get_user_reservation_by_id, hneS, h1, hf,
            hfetch] at hrow
        · simp [reservation_agent.get_user_reservation_by_id, hneS, h1, hf,
            hfetch] at hrow
          rw [← hrow]
          exact (fetch_by_id_some hfetch).2
      · simp [reservation_agent.get_user_reservation_by_id, hneS, h1, hf]
          at hrow
  · intro h1 hf hmiss
    have hfetch : fetch_by_id dbS ridS
        (reservation_agent.get_user_id_from_context tcS) = none :=
      fetch_by_id_none hmiss
    simp [reservation_agent.get_user_reservation_by_id, hneS, h1, hf, hfetch]

/-- Witness for C2: identity user_A requests reservation 7, which exists but
is owned by user_B — both variants answer with the not-found message. -/
theorem C2_tenant_isolation_witness :
    tools.get_user_id_from_context
      (some ⟨[("user_id_from_oauth", "user_A")]⟩) = some "user_A"
    ∧ (tools.get_user_reservation_by_id true
        ⟨[⟨7, "user_B", "dinner", 100⟩], none⟩
        (some ⟨[("user_id_from_oauth", "user_A")]⟩) "7").resp =
      .message ("No reservation found with ID " ++ "7" ++ " in your name.")
    ∧ (reservation_agent.get_user_reservation_by_id
        ⟨[⟨"9", "user_B", "lunch", 50⟩], none⟩
        ⟨⟨some true, some "tok", none⟩⟩ "9").outcome =
      .ok (.message ("No reservation found with ID " ++ "9" ++
        " in your name.")) := by
  have h := C2_tenant_isolation ⟨[⟨7, "user_B", "dinner", 100⟩], none⟩
    (some ⟨[("user_id_from_oauth", "user_A")]⟩) "7" "user_A" (by decide)
    (by decide) ⟨[⟨"9", "user_B", "lunch", 50⟩], none⟩
    ⟨⟨some true, some "tok", none⟩⟩ "9"
  exact ⟨by decide, h.2.1 7 (by decide) rfl (by decide),
    h.2.2.2 (by decide) rfl (by decide)⟩

/-- Claim C10 (confirmed): in the async variant, every session whose
logged_in flag is truthy resolves its identity to the hard-coded constant
"user_123", independent of the credential or verified token payload stored
in the session: any two authenticated sessions resolve the same identity,
and the latest-reservations query binds user_id = "user_123". -/
theorem C10_hardcoded_identity (tc tc2 : reservation_agent.ToolContext)
    (db : DB String)
    (h : pyTruthyBool tc.state.logged_in = true)
    (h2 : pyTruthyBool tc2.state.logged_in = true) :
    reservation_agent.get_user_id_from_context tc = "user_123"
    ∧ reservation_agent.get_user_id_from_context tc =
        reservation_agent.get_user_id_from_context tc2
    ∧ (reservation_agent.get_latest_user_reservations db tc).boundUserId =
        some "user_123" := by
  have g : reservation_agent.get_user_id_from_context tc = "user_123" := by
    simp [reservation_agent.get_user_id_from_context, h]
  have g2 : reservation_agent.get_user_id_from_context tc2 = "user_123" := by
    simp [reservation_agent.get_user_id_from_context, h2]
  refine ⟨g, g.trans g2.symm, ?_⟩
  cases hf : db.fault with
  | some e =>
      simp [reservation_agent.get_latest_user_reservations, g, hf]
  | none =>
      simp [reservation_agent.get_latest_user_reservations, g, hf,
        apply_ite reservation_agent.RACallResult.boundUserId]

/-- Witness for C10: two sessions authenticated with different credentials
and different verified token payloads both resolve the identity constant
"user_123". -/
theorem C10_hardcoded_identity_witness :
    pyTruthyBool (⟨⟨some true, some "credential-A", some "alice"⟩⟩ :
      reservation_agent.ToolContext).state.logged_in = true
    ∧ reservation_agent.get_user_id_from_context
        ⟨⟨some true, some "credential-A", some "alice"⟩⟩ = "user_123"
    ∧ reservation_agent.get_user_id_from_context
        ⟨⟨some true, some "credential-A", some "alice"⟩⟩ =
      reservation_agent.get_user_id_from_context
        ⟨⟨some true, some "credential-B", some "bob"⟩⟩ := by
  have h := C10_hardcoded_identity
    ⟨⟨some true, some "credential-A", some "alice"⟩⟩
    ⟨⟨some true, some "credential-B", some "bob"⟩⟩
    ⟨[], none⟩ (by decide) (by decide)
  exact ⟨by decide, h.1, h.2.1⟩

/-- Claim C5 (confirmed): in both variants, for an authenticated session the
latest-reservations query returns at most 3 rows, sorted by reservation date
descending, all owned by the caller's identity; the tool returns them as a
rows response, and an empty result is reported as a plain message (a normal,
non-error outcome). -/
theorem C5_latest_props (db : DB String) (tc : reservation_agent.ToolContext)
    (hl : pyTruthyBool tc.state.logged_in = true) (hf : db.fault = none)
    (dbS : DB Int) (tcS : Option tools.ToolContext) (uidS : String)
    (huS : tools.get_user_id_from_context tcS = some uidS) (hneS : uidS ≠ "")
    (hfS : dbS.fault = none) :
    (latest_query db (reservation_agent.get_user_id_from_context tc)).length ≤ 3
    ∧ List.Sorted (fun a b => b.reservation_date ≤ a.reservation_date)
        (latest_query db (reservation_agent.get_user_id_from_context tc))
    ∧ (∀ row ∈ (latest_query db
          (reservation_agent.get_user_id_from_context tc)).map toResRow,
        row.user_id = reservation_agent.get_user_id_from_context tc)
    ∧ (reservation_agent.get_latest_user_reservations db tc).outcome =
        .ok (if (latest_query db
              (reservation_agent.get_user_id_from_context tc)).isEmpty
          then .message ("No reservations found for user " ++
            reservation_agent.get_user_id_from_context tc ++ ".")
          else .rows ((latest_query db
            (reservation_agent.get_user_id_from_context tc)).map toResRow))
    ∧ (tools.get_latest_user_reservations true dbS tcS).resp =
        (if (latest_query dbS uidS).isEmpty
         then .message ("No reservations found for user " ++ uidS ++ ".")
         else .rows ((latest_query dbS uidS).map toResRow))
    ∧ (latest_query dbS uidS).length ≤ 3
    ∧ List.Sorted (fun a b => b.reservation_date ≤ a.reservation_date)
        (latest_query dbS uidS)
    ∧ (∀ row ∈ (latest_query dbS uidS).map toResRow,
        row.user_id = uidS) := by
  have hne : reservation_agent.get_user_id_from_context tc ≠ "" :=
    ra_uid_ne_empty tc
  have hptS : pyTruthyStr (tools.get_user_id_from_context tcS) = true := by
    rw [huS]
    simp [pyTruthyStr, hneS]
  have hgdS : (tools.get_user_id_from_context tcS).getD "" = uidS := by
    rw [huS]
    rfl
  refine ⟨latest_query_length _ _, latest_query_sorted _ _,
    latest_query_rows_owner _ _, ?_, ?_, latest_query_length _ _,
    latest_query_sorted _ _, latest_query_rows_owner _ _⟩
  · cases he : (latest_query db
        (reservation_agent.get_user_id_from_context tc)).isEmpty <;>
      simp [reservation_agent.get_latest_user_reservations, hf, hne, he]
  · cases he : (latest_query dbS uidS).isEmpty <;>
      simp [tools.get_latest_user_reservations, hptS, hgdS, hfS, he]

/-- Witness for C5 (the spec's Scenario 2): identity user_123 has five rows
dated 1..5; the async tool returns exactly the rows dated 5, 4, 3 in that
descending order, and the sync tool returns an empty-result message on a
database with no matching rows. -/
theorem C5_latest_props_witness :
    pyTruthyBool (⟨⟨some true, some "tok", none⟩⟩ :
      reservation_agent.ToolContext).state.logged_in = true
    ∧ (reservation_agent.get_latest_user_reservations
        ⟨[⟨"r1", "user_123", "d1", 1⟩, ⟨"r2", "user_123", "d2", 2⟩,
          ⟨"r3", "user_123", "d3", 3⟩, ⟨"r4", "user_123", "d4", 4⟩,
          ⟨"r5", "user_123", "d5", 5⟩, ⟨"x9", "user_B", "dx", 9⟩], none⟩
        ⟨⟨some true, some "tok", none⟩⟩).outcome =
      .ok (.rows [⟨"r5", "user_123", "d5", "5"⟩, ⟨"r4", "user_123", "d4", "4"⟩,
        ⟨"r3", "user_123", "d3", "3"⟩])
    ∧ (tools.get_latest_user_reservations true ⟨[⟨8, "user_B", "db", 8⟩], none⟩
        (some ⟨[("user_id_from_oauth", "user_A")]⟩)).resp =
      .message "No reservations found for user user_A." := by
  have h := C5_latest_props
    ⟨[⟨"r1", "user_123", "d1", 1⟩, ⟨"r2", "user_123", "d2", 2⟩,
      ⟨"r3", "user_123", "d3", 3⟩, ⟨"r4", "user_123", "d4", 4⟩,
      ⟨"r5", "user_123", "d5", 5⟩, ⟨"x9", "user_B", "dx", 9⟩], none⟩
    ⟨⟨some true, some "tok", none⟩⟩ (by decide) rfl
    ⟨[⟨8, "user_B", "db", 8⟩], none⟩
    (some ⟨[("user_id_from_oauth", "user_A")]⟩) "user_A" (by decide)
    (by decide) rfl
  refine ⟨by decide, ?_, ?_⟩
  · rw [h.2.2.2.1]
    rfl
  · rw [h.2.2.2.2.1]
    rfl

theorem sync_byid_bound (sl : Bool) (db : DB Int) (tc : Option tools.ToolContext)
    (rid : String) :
    (tools.get_user_reservation_by_id sl db tc rid).boundUserId = none
    ∨ ((tools.get_user_reservation_by_id sl db tc rid).boundUserId =
        some ((tools.get_user_id_from_context tc).getD "")
      ∧ pyTruthyStr (tools.get_user_id_from_context tc) = true) := by
  by_cases hc : pyTruthyStr (tools.get_user_id_from_context tc) = false
  · left
    simp [tools.get_user_reservation_by_id, hc]
  · simp only [tools.get_user_reservation_by_id, hc, if_false, ite_false]
    repeat' split
    all_goals first
    | exact Or.inl rfl
    | exact Or.inr ⟨rfl, trivial⟩

theorem ra_byid_bound (db : DB String) (tc : reservation_agent.ToolContext)
    (rid : String) :
    (reservation_agent.get_user_reservation_by_id db tc rid).boundUserId = none
    ∨ (reservation_agent.get_user_reservation_by_id db tc rid).boundUserId =
        some (reservation_agent.get_user_id_from_context tc) := by
  simp only [reservation_agent.get_user_reservation_by_id]
  repeat' split
  all_goals first
  | exact Or.inl rfl
  | exact Or.inr rfl

/-- Claim C8 (confirmed): in both variants the user_id bound into the
database query is read from the session context only: whenever a query is
issued, the bound user_id equals the context-derived identity, and varying
the declared reservation_id argument can never change it — any two calls
that issue queries bind the same user_id. -/
theorem C8_identity_not_overridable
    (db : DB String) (tc : reservation_agent.ToolContext) (rid rid2 : String)
    (dbS : DB Int) (tcS : Option tools.ToolContext) (ridS ridS2 : String) :
    (∀ u, (reservation_agent.get_user_reservation_by_id db tc rid).boundUserId
        = some u → u = reservation_agent.get_user_id_from_context tc)
    ∧ (∀ u u2,
        (reservation_agent.get_user_reservation_by_id db tc rid).boundUserId
          = some u →
        (reservation_agent.get_user_reservation_by_id db tc rid2).boundUserId
          = some u2 → u = u2)
    ∧ (∀ u, (tools.get_user_reservation_by_id true dbS tcS ridS).boundUserId
        = some u → tools.get_user_id_from_context tcS = some u)
    ∧ (∀ u u2,
        (tools.get_user_reservation_by_id true dbS tcS ridS).boundUserId
          = some u →
        (tools.get_user_reservation_by_id true dbS tcS ridS2).boundUserId
          = some u2 → u = u2) := by
  have key : ∀ r u,
      (reservation_agent.get_user_reservation_by_id db tc r).boundUserId
        = some u → u = reservation_agent.get_user_id_from_context tc := by
    intro r u hu
    rcases ra_byid_bound db tc r with hb | hb
    · rw [hb] at hu
      cases hu
    · rw [hb] at hu
      exact (Option.some_injective _ hu).symm
  have keyS : ∀ r u,
      (tools.get_user_reservation_by_id true dbS tcS r).boundUserId
        = some u → tools.get_user_id_from_context tcS = some u := by
    intro r u hu
    rcases sync_byid_bound true dbS tcS r with hb | hb
    · rw [hb] at hu
      cases hu
    · rw [hb.1] at hu
      rw [pyTruthyStr_some hb.2, Option.some_injective _ hu]
  refine ⟨key rid, ?_, keyS ridS, ?_⟩
  · intro u u2 hu hu2
    rw [key rid u hu, key rid2 u2 hu2]
  · intro u u2 hu hu2
    have h1 := keyS ridS u hu
    have h2 := keyS ridS2 u2 hu2
    rw [h1] at h2
    exact Option.some_injective _ h2

/-- Witness for C8: with an authenticated async session and a sync session
carrying user_A, two calls with different reservation ids both bind the
context identity, and the bound value matches the context in each variant. -/
theorem C8_identity_not_overridable_witness :
    (reservation_agent.get_user_reservation_by_id ⟨[], none⟩
      ⟨⟨some true, some "tok", none⟩⟩ "1").boundUserId = some "user_123"
    ∧ "user_123" = reservation_agent.get_user_id_from_context
        ⟨⟨some true, some "tok", none⟩⟩
    ∧ tools.get_user_id_from_context
        (some ⟨[("user_id_from_oauth", "user_A")]⟩) = some "user_A" := by
  have h := C8_identity_not_overridable ⟨[], none⟩
    ⟨⟨some true, some "tok", none⟩⟩ "1" "2" ⟨[], none⟩
    (some ⟨[("user_id_from_oauth", "user_A")]⟩) "1" "2"
  exact ⟨rfl, h.1 "user_123" rfl,
    h.2.2.1 "user_A" rfl⟩

/-- Counterexample to C4: in the async variant, calling
get_user_reservation_by_id with the non-numeric id "abc" from an
authenticated session issues a database query (binding the raw string) and
returns a not-found message — no ValidationError and not zero queries. -/
theorem C4_counterexample :
    (reservation_agent.get_user_reservation_by_id ⟨[], none⟩
      ⟨⟨some true, some "tok", none⟩⟩ "abc").queries = 1
    ∧ (reservation_agent.get_user_reservation_by_id ⟨[], none⟩
      ⟨⟨some true, some "tok", none⟩⟩ "abc").outcome =
      .ok (.message "No reservation found with ID abc in your name.") :=
  ⟨rfl, rfl⟩

/-- Claim C4 as amended (the sync variant validates, the async variant does
not): in the sync variant a non-numeric reservation_id fails fast with the
invalid-format ValidationError and no query or pool checkout; in the async
variant the raw reservation_id string is bound into the query without any
format validation, so a query is issued even for non-numeric input. -/
theorem C4_amended_validation (db : DB Int) (tc : Option tools.ToolContext)
    (rid : String)
    (hu : pyTruthyStr (tools.get_user_id_from_context tc) = true)
    (hr : rid ≠ "") (hn : py_int rid = none)
    (dbS : DB String) (tcS : reservation_agent.ToolContext) (ridS : String)
    (hrS : ridS ≠ "") (hnS : py_int ridS = none) (hfS : dbS.fault = none) :
    (tools.get_user_reservation_by_id true db tc rid).resp =
      .error ("Invalid reservation ID format: " ++ rid ++
        ". Expected an integer or numeric string.")
    ∧ (tools.get_user_reservation_by_id true db tc rid).queries = 0
    ∧ (tools.get_user_reservation_by_id true db tc rid).events = []
    ∧ (reservation_agent.get_user_reservation_by_id dbS tcS ridS).queries
        = 1 := by
  have hne : reservation_agent.get_user_id_from_context tcS ≠ "" :=
    ra_uid_ne_empty tcS
  refine ⟨?_, ?_, ?_, ?_⟩
  · simp [tools.get_user_reservation_by_id, hu, hr, hn]
  · simp [tools.get_user_reservation_by_id, hu, hr, hn]
  · simp [tools.get_user_reservation_by_id, hu, hr, hn]
  · cases hfetch : fetch_by_id dbS ridS
        (reservation_agent.get_user_id_from_context tcS) <;>
      simp [reservation_agent.get_user_reservation_by_id, hne, hrS, hfS,
        hfetch]

/-- Witness for the amended C4: reservation id "abc" yields the sync
ValidationError with zero queries, while the async variant issues a query. -/
theorem C4_amended_validation_witness :
    pyTruthyStr (tools.get_user_id_from_context
      (some ⟨[("user_id_from_oauth", "user_A")]⟩)) = true
    ∧ py_int "abc" = none
    ∧ (tools.get_user_reservation_by_id true ⟨[], none⟩
        (some ⟨[("user_id_from_oauth", "user_A")]⟩) "abc").resp =
      .error ("Invalid reservation ID format: " ++ "abc" ++
        ". Expected an integer or numeric string.")
    ∧ (tools.get_user_reservation_by_id true ⟨[], none⟩
        (some ⟨[("user_id_from_oauth", "user_A")]⟩) "abc").queries = 0
    ∧ (reservation_agent.get_user_reservation_by_id ⟨[], none⟩
        ⟨⟨some true, some "tok", none⟩⟩ "abc").queries = 1 := by
  have h := C4_amended_validation ⟨[], none⟩
    (some ⟨[("user_id_from_oauth", "user_A")]⟩) "abc" (by decide) (by decide)
    (by decide) ⟨[], none⟩ ⟨⟨some true, some "tok", none⟩⟩ "abc" (by decide)
    (by decide) rfl
  exact ⟨by decide, by decide, h.1, h.2.1, h.2.2.2⟩

/-- Counterexample to C6: a present credential whose verification fails
("Token expired") makes validate_oauth2_token propagate the fault to the
caller instead of writing authenticated = false — the state update with
logged_in = false never happens. -/
theorem C6_counterexample :
    reservation_agent.validate_oauth2_token
      ⟨none, some "expired-token", none⟩ (.error "Token expired") =
      .error "Token expired" :=
  rfl

/-- Claim C6 as amended: only an absent (falsy) credential is absorbed into
authenticated = false without a fault; when a credential is present, a
verification failure propagates as a raised fault with no flag written,
and a verification success writes authenticated = true and stores the
verified payload. -/
theorem C6_amended_flag_only_when_absent (st : reservation_agent.State)
    (verify : Except String String) (e idinfo : String) :
    (pyTruthyStr st.user_token = false →
      reservation_agent.validate_oauth2_token st verify =
        .ok { st with logged_in := some false })
    ∧ (pyTruthyStr st.user_token = true → verify = .error e →
      reservation_agent.validate_oauth2_token st verify = .error e)
    ∧ (pyTruthyStr st.user_token = true → verify = .ok idinfo →
      reservation_agent.validate_oauth2_token st verify =
        .ok { st with logged_in := some true,
                      id_token_info := some idinfo }) := by
  refine ⟨?_, ?_, ?_⟩
  · intro h
    simp [reservation_agent.validate_oauth2_token, h]
  · intro h hv
    simp [reservation_agent.validate_oauth2_token, h, hv]
  · intro h hv
    simp [reservation_agent.validate_oauth2_token, h, hv]

/-- Witness for the amended C6: an absent token is absorbed into
logged_in = false, a failing verification of a present token raises. -/
theorem C6_amended_flag_only_when_absent_witness :
    pyTruthyStr (none : Option String) = false
    ∧ reservation_agent.validate_oauth2_token ⟨none, none, none⟩
        (.error "unreachable") = .ok ⟨some false, none, none⟩
    ∧ reservation_agent.validate_oauth2_token ⟨none, some "cred", none⟩
        (.error "revoked") = .error "revoked" := by
  have h1 := C6_amended_flag_only_when_absent ⟨none, none, none⟩
    (.error "unreachable") "unreachable" "payload"
  have h2 := C6_amended_flag_only_when_absent ⟨none, some "cred", none⟩
    (.error "revoked") "revoked" "payload"
  exact ⟨by decide, h1.1 (by decide), h2.2.1 (by decide) rfl⟩

/-- Counterexample to C7: a database driver failure in the sync variant is
returned to the caller with the raw driver error text appended to the
message — the response is not a sanitized generic error. -/
theorem C7_counterexample :
    (tools.get_user_reservation_by_id true
      ⟨[], some "connection refused: password authentication failed for server db-host"⟩
      (some ⟨[("user_id_from_oauth", "user_123")]⟩) "7").resp =
      .error ("An error occurred while fetching the reservation: " ++
        "connection refused: password authentication failed for server db-host") :=
  rfl

/-- Claim C7 as amended: database-level failures are caught and returned as
structured error responses (and logged internally), but the response message
embeds the raw driver error text str(e) after a fixed prefix in both sync
tools, rather than a generic sanitized message. -/
theorem C7_amended_raw_error_text (db : DB Int) (tc : Option tools.ToolContext)
    (rid : String) (e : String) (n : Int)
    (hu : pyTruthyStr (tools.get_user_id_from_context tc) = true)
    (hr : rid ≠ "") (hn : py_int rid = some n) (hf : db.fault = some e) :
    (tools.get_user_reservation_by_id true db tc rid).resp =
      .error ("An error occurred while fetching the reservation: " ++ e)
    ∧ (tools.get_latest_user_reservations true db tc).resp =
      .error ("An error occurred while fetching latest reservations: " ++ e) := by
  constructor
  · simp [tools.get_user_reservation_by_id, hu, hr, hn, hf]
  · simp [tools.get_latest_user_reservations, hu, hf]

/-- Witness for the amended C7: a concrete driver fault surfaces with its
raw text appended after the fixed prefix in both sync tools. -/
theorem C7_amended_raw_error_text_witness :
    pyTruthyStr (tools.get_user_id_from_context
      (some ⟨[("user_id_from_oauth", "user_A")]⟩)) = true
    ∧ py_int "7" = some 7
    ∧ (tools.get_user_reservation_by_id true ⟨[], some "deadlock detected"⟩
        (some ⟨[("user_id_from_oauth", "user_A")]⟩) "7").resp =
      .error ("An error occurred while fetching the reservation: " ++
        "deadlock detected")
    ∧ (tools.get_latest_user_reservations true ⟨[], some "deadlock detected"⟩
        (some ⟨[("user_id_from_oauth", "user_A")]⟩)).resp =
      .error ("An error occurred while fetching latest reservations: " ++
        "deadlock detected") := by
  have h := C7_amended_raw_error_text ⟨[], some "deadlock detected"⟩
    (some ⟨[("user_id_from_oauth", "user_A")]⟩) "7" "deadlock detected" 7
    (by decide) (by decide) (by decide) rfl
  exact ⟨by decide, by decide, h.1, h.2⟩

end KvgPoc
